import Mathlib

/-!
# Verification of the access-point dual-write synchronization core

Shallow embedding of the repository's core logic:

* `SupabaseOperations` — the record-store adapter (supabase-js backed,
  `supabaseOperations.ts`): CRUD, bulk upsert, text search, and the
  camelCase ⇄ snake_case key translation.
* `DatabaseOperations` — the parallel PostgreSQL (pg) store adapter
  (`databaseOperations.ts`); only its `deleteAccessPoint` semantics are
  needed here (it checks `rowCount === 0` and reports not-found).
* `PineconeOperations` — the vector-index adapter (`pineconeOperations.ts`),
  in particular the deterministic hash-based fallback embedding.
* `DataSyncManager` — the coordinator (`dataSyncManager.ts`).

External backends are modelled by an explicit environment `Env` of fault
flags (transport success/failure per call) plus the backend-supplied data
(index query answers, clock), and a `SyncState` holding the store rows and
index entries.  JavaScript 32-bit arithmetic (`|0`, `<<`, `%`) is modelled
on `Int` with explicit wrapping (`toInt32`) and truncated remainder
(`Int.tmod`), and embedding components are exact rationals (the quantities
divided by 1000 are small integers, on which IEEE double division is exact
and injective, so `ℚ` is a faithful model for the equalities proved here).
-/

/-- `inputType` / `outputType` enumeration from `types.ts`
(`'text' | 'json' | 'file' | 'image'`), kept as the literal strings because
the embedding text interpolates them. -/
def ioTypes : List String := ["text", "json", "file", "image"]

/-- The `AccessPoint` record from `types.ts`.  `inputType`/`outputType` are
strings drawn from `ioTypes`; `createdAt`/`updatedAt` are optional because
they are server-assigned. -/
structure AccessPoint where
  id : String
  subnetID : String
  subnetName : String
  description : String
  input : String
  output : String
  inputType : String
  outputType : String
  capabilities : List String
  tags : List String
  promptExample : String
  fileUpload : Bool
  fileDownload : Bool
  subnetURL : String
  createdAt : Option String := none
  updatedAt : Option String := none
deriving DecidableEq, Repr

/-- The uniform result envelope `APIResponse<T>` from `types.ts`:
`{success: boolean, data?: T, error?: string}`. -/
structure APIResponse (α : Type) where
  success : Bool
  data : Option α := none
  error : Option String := none
deriving DecidableEq, Repr

/-- A `Partial<AccessPoint>` as used by `updateAccessPoint`: every field
optional; only present fields are written to the store. -/
structure PartialAccessPoint where
  id : Option String := none
  subnetID : Option String := none
  subnetName : Option String := none
  description : Option String := none
  input : Option String := none
  output : Option String := none
  inputType : Option String := none
  outputType : Option String := none
  capabilities : Option (List String) := none
  tags : Option (List String) := none
  promptExample : Option String := none
  fileUpload : Option Bool := none
  fileDownload : Option Bool := none
  subnetURL : Option String := none
  createdAt : Option String := none
  updatedAt : Option String := none
deriving DecidableEq, Repr

/-- Column-wise merge performed by the store's SQL `UPDATE`: each supplied
field overwrites the stored one, and the adapter always sets
`updated_at = now` on top (the spread `{...toSnakeCase(updates),
updated_at: now}` overrides any caller-supplied `updatedAt`). -/
def applyUpdates (ap : AccessPoint) (u : PartialAccessPoint) (now : String) :
    AccessPoint where
  id := u.id.getD ap.id
  subnetID := u.subnetID.getD ap.subnetID
  subnetName := u.subnetName.getD ap.subnetName
  description := u.description.getD ap.description
  input := u.input.getD ap.input
  output := u.output.getD ap.output
  inputType := u.inputType.getD ap.inputType
  outputType := u.outputType.getD ap.outputType
  capabilities := u.capabilities.getD ap.capabilities
  tags := u.tags.getD ap.tags
  promptExample := u.promptExample.getD ap.promptExample
  fileUpload := u.fileUpload.getD ap.fileUpload
  fileDownload := u.fileDownload.getD ap.fileDownload
  subnetURL := u.subnetURL.getD ap.subnetURL
  createdAt := match u.createdAt with
    | some s => some s
    | none => ap.createdAt
  updatedAt := some now

namespace SupabaseOperations

/-!
## camelCase ⇄ snake_case key translation (`supabaseOperations.ts`)

`toSnakeCase` applies, per key, the JavaScript pipeline

```
key.replace(/([a-z])([A-Z])/g, '$1_$2')
   .replace(/([A-Z])([A-Z][a-z])/g, '$1_$2')
   .toLowerCase()
   .replace(/^_/, '')
```

and `toCamelCase` applies `key.replace(/_([a-z])/g, g => g[1].toUpperCase())`.

Each global regex pass is reproduced as a left-to-right scan.  For pass 1
the two matched characters cannot overlap a following match (the second
character is uppercase, the next match would need it lowercase), so
checking every adjacent pair is exactly the regex's non-overlapping global
semantics; the analogous argument applies to pass 2 (the third matched
character is lowercase, but a following match would need it uppercase) and
to the camelizing pass (both matched characters are consumed and the next
match must start after them).
-/

/-- Pass 1 of `toSnakeCase`: `replace(/([a-z])([A-Z])/g, '$1_$2')` —
insert `_` between each lowercase→uppercase transition. -/
def snakePass1 : List Char → List Char
  | a :: b :: rest =>
    if a.isLower && b.isUpper then a :: '_' :: snakePass1 (b :: rest)
    else a :: snakePass1 (b :: rest)
  | l => l

/-- Pass 2 of `toSnakeCase`: `replace(/([A-Z])([A-Z][a-z])/g, '$1_$2')` —
insert `_` before the last capital of a capital run followed by a
lowercase letter. -/
def snakePass2 : List Char → List Char
  | a :: b :: c :: rest =>
    if a.isUpper && b.isUpper && c.isLower then a :: '_' :: snakePass2 (b :: c :: rest)
    else a :: snakePass2 (b :: c :: rest)
  | l => l

/-- `replace(/^_/, '')` — strip at most one leading underscore. -/
def stripLeadingUnderscore : List Char → List Char
  | '_' :: rest => rest
  | l => l

/-- `toSnakeCase` key conversion (non-null value branch of
`SupabaseOperations.toSnakeCase`). -/
def toSnakeCase (key : String) : String :=
  String.mk (stripLeadingUnderscore ((snakePass2 (snakePass1 key.data)).map Char.toLower))

/-- One scan of `replace(/_([a-z])/g, g => g[1].toUpperCase())`. -/
def camelScan : List Char → List Char
  | '_' :: c :: rest =>
    if c.isLower then c.toUpper :: camelScan rest
    else '_' :: camelScan (c :: rest)
  | c :: rest => c :: camelScan rest
  | [] => []

/-- `toCamelCase` key conversion (`SupabaseOperations.toCamelCase`). -/
def toCamelCase (key : String) : String :=
  String.mk (camelScan key.data)

end SupabaseOperations

/-- The field names actually used by the `AccessPoint` record schema
(`types.ts`). -/
def schemaFieldNames : List String :=
  ["id", "subnetID", "subnetName", "description", "input", "output",
   "inputType", "outputType", "capabilities", "tags", "promptExample",
   "fileUpload", "fileDownload", "subnetURL", "createdAt", "updatedAt"]

/-!
## Vector-index adapter: the fallback embedding (`pineconeOperations.ts`)
-/

/-- `EMBEDDING_DIMENSION = 1024` from `pineconeOperations.ts`. -/
def EMBEDDING_DIMENSION : Nat := 1024

/-- JavaScript `ToInt32` (the effect of `|0` and of `<<` on its result):
reduce modulo 2^32 into the signed range [-2^31, 2^31). -/
def toInt32 (n : Int) : Int :=
  if n % 4294967296 < 2147483648 then n % 4294967296
  else n % 4294967296 - 4294967296

/-- One step of the rolling hash as written in the source:
`hash = ((hash << 5) - hash) + char; hash |= 0`.  In JavaScript `hash << 5`
is itself a 32-bit operation (`ToInt32(hash * 32)`), and the outer `|0`
wraps the exactly-computed double `toInt32(hash*32) - hash + char`. -/
def jsHashStep (hash c : Int) : Int :=
  toInt32 (toInt32 (hash * 32) - hash + c)

namespace PineconeOperations

/-- The text representation built at the top of `generateEmbedding`:
the eight labelled lines, with the `Example:` line present only when
`promptExample` is non-empty (`filter(Boolean)`), joined by `'\n'`. -/
def textToEmbed (ap : AccessPoint) : String :=
  String.intercalate "\n" (([
    "ID: " ++ ap.id,
    "Subnet: " ++ ap.subnetName ++ " (" ++ ap.subnetID ++ ")",
    "Description: " ++ ap.description,
    "Input: " ++ ap.input ++ " (" ++ ap.inputType ++ ")",
    "Output: " ++ ap.output ++ " (" ++ ap.outputType ++ ")",
    "Capabilities: " ++ String.intercalate ", " ap.capabilities,
    "Tags: " ++ String.intercalate ", " ap.tags,
    if ap.promptExample ≠ "" then "Example: " ++ ap.promptExample else ""
  ]).filter (fun s => s ≠ ""))

/-- `charCodeAt` sequence of a string.  All record contents in this
repository are ASCII, where UTF-16 code units coincide with code points,
so `Char.toNat` is a faithful model. -/
def charCodes (s : String) : List Int :=
  s.data.map (fun ch => (ch.toNat : Int))

/-- One loop iteration of the fallback embedding: advance the hash by
`jsHashStep`, then `vector[i % EMBEDDING_DIMENSION] =
(hash % 2000 - 1000) / 1000` where `%` is JavaScript's signed (truncated)
remainder, modelled by `Int.tmod`.  The numerator is an exact integer in
JavaScript too, so the quotient is written `Rat.divInt`, which is ordinary
rational division by 1000 (`divInt_thousand_eq`). -/
def embedStep (acc : List ℚ × Int × Nat) (c : Int) : List ℚ × Int × Nat :=
  let h := jsHashStep acc.2.1 c
  (acc.1.set (acc.2.2 % EMBEDDING_DIMENSION)
    (Rat.divInt (Int.tmod h 2000 - 1000) 1000), h, acc.2.2 + 1)

/-- The hash-based fallback embedding of a text: start from the zero
vector of length `EMBEDDING_DIMENSION` and `hash = 0`, and run `embedStep`
over the character codes. -/
def hashEmbedString (s : String) : List ℚ :=
  ((charCodes s).foldl embedStep
    (List.replicate EMBEDDING_DIMENSION 0, 0, 0)).1

/-- `PineconeOperations.generateEmbedding` on the fallback (no provider)
path: embed the record's text representation. -/
def generateEmbedding (ap : AccessPoint) : List ℚ :=
  hashEmbedString (textToEmbed ap)

/-!
### Reference definitions for the spec's description of the embedding

`referenceSpecStep` follows the spec's words literally: hash advanced by
`hash*31 + charCode` wrapped to 32-bit signed, and slot value
`hash mod 2000 / 1000 - 1, a value in [-1, 1)` — the stated range forces
`mod` to be the mathematical (nonnegative) modulus `Int.emod`.
`referenceAmendedStep` differs only in using JavaScript's signed remainder
`Int.tmod`, exactly as the code does (values then range over (-3, 1)).
In both, the slot value `m / 1000 - 1` is written with the subtraction
pulled into the numerator, `Rat.divInt (m - 1000) 1000`, which is the same
rational (`divInt_sub_thousand_eq`). -/
def referenceSpecStep (acc : List ℚ × Int × Nat) (c : Int) : List ℚ × Int × Nat :=
  let h := toInt32 (acc.2.1 * 31 + c)
  (acc.1.set (acc.2.2 % EMBEDDING_DIMENSION)
    (Rat.divInt (h.emod 2000 - 1000) 1000), h, acc.2.2 + 1)

/-- The spec-as-written reference embedding of a record. -/
def referenceSpecEmbedding (ap : AccessPoint) : List ℚ :=
  ((charCodes (textToEmbed ap)).foldl referenceSpecStep
    (List.replicate EMBEDDING_DIMENSION 0, 0, 0)).1

/-- The amended reference step: `hash*31 + charCode` wrapped to 32-bit
signed, slot value `(hash % 2000 - 1000) / 1000` with `%` the signed
truncated remainder. -/
def referenceAmendedStep (acc : List ℚ × Int × Nat) (c : Int) : List ℚ × Int × Nat :=
  let h := toInt32 (acc.2.1 * 31 + c)
  (acc.1.set (acc.2.2 % EMBEDDING_DIMENSION)
    (Rat.divInt (Int.tmod h 2000 - 1000) 1000), h, acc.2.2 + 1)

/-- The amended reference embedding of a record. -/
def referenceAmendedEmbedding (ap : AccessPoint) : List ℚ :=
  ((charCodes (textToEmbed ap)).foldl referenceAmendedStep
    (List.replicate EMBEDDING_DIMENSION 0, 0, 0)).1

end PineconeOperations

/-- The all-defaults record used as a concrete evaluation point: a record
with one-character id and every other descriptive field empty. -/
def apMin : AccessPoint where
  id := "a"
  subnetID := ""
  subnetName := ""
  description := ""
  input := ""
  output := ""
  inputType := "text"
  outputType := "text"
  capabilities := []
  tags := []
  promptExample := ""
  fileUpload := false
  fileDownload := false
  subnetURL := ""

/-!
## The dual-backend state machine

External backends are modelled by a fault-injection environment: every
outgoing call either reaches the backend (its `…Ok` flag is `true`, and the
modelled backend semantics apply) or fails at the transport/auth layer
(flag `false`, the adapter returns its caught-error envelope).  Data the
backends produce — the clock, the index's similarity answers, the store's
server-side ranked text-search rows — is likewise supplied by the
environment.
-/

/-- Metadata projection stored with each vector
(`upsertAccessPoint` / `bulkUpsertAccessPoints` in `pineconeOperations.ts`).
`promptExample || ''` and `tags || []` are identities on the actual string
and array values, so the fields are taken directly. -/
structure VectorMetadata where
  id : String
  subnetID : String
  description : String
  fileUpload : Bool
  fileDownload : Bool
  promptExample : String
  tags : List String
deriving DecidableEq, Repr

/-- A stored vector entry (`VectorData` in `types.ts`). -/
structure VectorData where
  id : String
  values : List ℚ
  metadata : VectorMetadata
deriving DecidableEq, Repr

/-- The vector entry the index adapter derives from a record. -/
def vectorDataOf (ap : AccessPoint) : VectorData where
  id := ap.id
  values := PineconeOperations.generateEmbedding ap
  metadata :=
    { id := ap.id
      subnetID := ap.subnetID
      description := ap.description
      fileUpload := ap.fileUpload
      fileDownload := ap.fileDownload
      promptExample := ap.promptExample
      tags := ap.tags }

/-- Joint state of the two backends: the store's table rows (each row's
primary key is its `id` column), the index's entries keyed by vector id,
plus a count of index bulk-upsert attempts (used to drive per-attempt
fault injection). -/
structure SyncState where
  store : List AccessPoint
  index : List (String × VectorData)
  indexBulkCalls : Nat
deriving DecidableEq, Repr

/-- Fault-injection environment for one coordinator operation. -/
structure Env where
  /-- Value of `new Date().toISOString()` during the operation. -/
  now : String
  storeCreateOk : Bool
  storeUpdateOk : Bool
  storeDeleteOk : Bool
  storeBulkOk : Bool
  storeSearchOk : Bool
  /-- Rows the store's server-side ranked text search returns for a query. -/
  storeSearchRows : String → List AccessPoint
  indexUpsertOk : Bool
  indexDeleteOk : Bool
  /-- Whether the n-th index bulk-upsert attempt (counted by
  `SyncState.indexBulkCalls`) reaches the backend in full. -/
  indexBulkOk : Nat → Bool
  /-- Number of 100-record chunks already committed when the n-th bulk
  attempt fails mid-way (prior chunks stay committed). -/
  indexBulkCommittedChunks : Nat → Nat
  /-- Outcome of the index similarity query: `none` if the call fails,
  otherwise the ranked ids of the returned matches. -/
  indexQuery : Option (List String)

/-- Replace-or-insert of a vector entry, keyed by id (index upserts are
idempotent: same id overwrites). -/
def upsertVector (ix : List (String × VectorData)) (ap : AccessPoint) :
    List (String × VectorData) :=
  (ap.id, vectorDataOf ap) :: ix.filter (fun e => e.1 != ap.id)

namespace SupabaseOperations

/-- `SupabaseOperations.createAccessPoint`: insert with server-assigned
timestamps; a duplicate id violates the primary-key constraint and the
insert fails. -/
def createAccessPoint (env : Env) (st : SyncState) (ap : AccessPoint) :
    APIResponse AccessPoint × SyncState :=
  if env.storeCreateOk = false then
    ({ success := false,
       error := some "Failed to create access point: connection error" }, st)
  else if (st.store.find? (fun r => r.id == ap.id)).isSome then
    ({ success := false,
       error := some "Failed to create access point: duplicate key value" }, st)
  else
    let stored := { ap with createdAt := some env.now, updatedAt := some env.now }
    ({ success := true, data := some stored },
     { st with store := stored :: st.store })

/-- `SupabaseOperations.updateAccessPoint`: column-wise update of the
matched row (`.eq('id', id)`), refreshing `updated_at`; `.single()` fails
when no row matched. -/
def updateAccessPoint (env : Env) (st : SyncState) (id : String)
    (u : PartialAccessPoint) : APIResponse AccessPoint × SyncState :=
  if env.storeUpdateOk = false then
    ({ success := false,
       error := some "Failed to update access point: connection error" }, st)
  else
    match st.store.find? (fun r => r.id == id) with
    | none =>
      ({ success := false,
         error := some "Failed to update access point: no rows returned" }, st)
    | some old =>
      let merged := applyUpdates old u env.now
      ({ success := true, data := some merged },
       { st with store := st.store.map (fun r => if r.id == id then merged else r) })

/-- `SupabaseOperations.getAccessPoint`: select by id, not-found when the
row is absent (`PGRST116`). -/
def getAccessPoint (st : SyncState) (id : String) : APIResponse AccessPoint :=
  match st.store.find? (fun r => r.id == id) with
  | none =>
    { success := false,
      error := some ("Access point with id " ++ id ++ " not found.") }
  | some ap => { success := true, data := some ap }

/-- `SupabaseOperations.deleteAccessPoint`: `.delete().eq('id', id)` —
deleting zero rows is NOT an error, so an absent id still yields
`success: true`. -/
def deleteAccessPoint (env : Env) (st : SyncState) (id : String) :
    APIResponse Unit × SyncState :=
  if env.storeDeleteOk = false then
    ({ success := false,
       error := some "Failed to delete access point: connection error" }, st)
  else
    ({ success := true }, { st with store := st.store.filter (fun r => r.id != id) })

/-- `SupabaseOperations.searchAccessPoints`: delegate to the server-side
`search_access_points` ranked text search. -/
def searchAccessPoints (env : Env) (q : String) : APIResponse (List AccessPoint) :=
  if env.storeSearchOk = false then
    { success := false, error := some "Failed to search access points: rpc error" }
  else { success := true, data := some (env.storeSearchRows q) }

/-- One row of the store bulk upsert (`onConflict: 'id'`):
insert-or-replace by id. -/
def upsertRow (store : List AccessPoint) (row : AccessPoint) :
    List AccessPoint :=
  if (store.find? (fun r => r.id == row.id)).isSome then
    store.map (fun r => if r.id == row.id then row else r)
  else store ++ [row]

/-- `SupabaseOperations.bulkInsertAccessPoints`: one upsert request for
the whole batch (all-or-nothing on the server side), timestamps attached
to every row. -/
def bulkInsertAccessPoints (env : Env) (st : SyncState) (aps : List AccessPoint) :
    APIResponse Unit × SyncState :=
  if env.storeBulkOk = false then
    ({ success := false,
       error := some "Failed to bulk insert access points: connection error" }, st)
  else
    let rows := aps.map (fun ap =>
      { ap with createdAt := some env.now, updatedAt := some env.now })
    ({ success := true }, { st with store := rows.foldl upsertRow st.store })

end SupabaseOperations

namespace DatabaseOperations

/-- `DatabaseOperations.deleteAccessPoint` (the PostgreSQL/pg adapter):
run `DELETE … WHERE id = $1` and report not-found when `rowCount === 0`. -/
def deleteAccessPoint (connOk : Bool) (store : List AccessPoint)
    (id : String) : APIResponse Unit × List AccessPoint :=
  if connOk = false then
    ({ success := false,
       error := some "Failed to delete access point: connection error" }, store)
  else if (store.find? (fun r => r.id == id)).isNone then
    ({ success := false,
       error := some ("Access point with id " ++ id ++ " not found.") }, store)
  else
    ({ success := true }, store.filter (fun r => r.id != id))

end DatabaseOperations

namespace PineconeOperations

/-- `PineconeOperations.upsertAccessPoint`: compute the embedding and
write vector + metadata; same id overwrites. -/
def upsertAccessPoint (env : Env) (st : SyncState) (ap : AccessPoint) :
    APIResponse Unit × SyncState :=
  if env.indexUpsertOk = false then
    ({ success := false,
       error := some "Failed to upsert to Pinecone: connection error" }, st)
  else ({ success := true }, { st with index := upsertVector st.index ap })

/-- `PineconeOperations.updateAccessPoint` — "Pinecone updates are done
via upsert". -/
def updateAccessPoint (env : Env) (st : SyncState) (ap : AccessPoint) :
    APIResponse Unit × SyncState :=
  upsertAccessPoint env st ap

/-- `PineconeOperations.deleteAccessPoint`: `index.deleteOne(id)` —
deleting a non-existent id resolves successfully. -/
def deleteAccessPoint (env : Env) (st : SyncState) (id : String) :
    APIResponse Unit × SyncState :=
  if env.indexDeleteOk = false then
    ({ success := false,
       error := some "Failed to delete from Pinecone: connection error" }, st)
  else
    ({ success := true }, { st with index := st.index.filter (fun e => e.1 != id) })

/-- `PineconeOperations.searchSimilar`: embed the query and ask the index
for the top-K nearest matches; the ranked ids of the answer (or the
failure of the call) come from the environment. -/
def searchSimilar (env : Env) (q : String) (topK : Nat) : APIResponse (List String) :=
  match q, topK, env.indexQuery with
  | _, _, none =>
    { success := false, error := some "Failed to search Pinecone: connection error" }
  | _, _, some ids => { success := true, data := some ids }

/-- `PineconeOperations.bulkUpsertAccessPoints`: embed every record, then
upsert in sequential chunks of 100.  On a mid-batch failure the prior
chunks stay committed (`indexBulkCommittedChunks` chunks of the n-th attempt). -/
def bulkUpsertAccessPoints (env : Env) (st : SyncState) (aps : List AccessPoint) :
    APIResponse Unit × SyncState :=
  let n := st.indexBulkCalls
  if env.indexBulkOk n then
    ({ success := true },
     { st with index := aps.foldl upsertVector st.index, indexBulkCalls := n + 1 })
  else
    ({ success := false,
       error := some "Failed to bulk upsert to Pinecone: connection error" },
     { st with index := (aps.take (env.indexBulkCommittedChunks n * 100)).foldl upsertVector st.index,
               indexBulkCalls := n + 1 })

end PineconeOperations

namespace DataSyncManager

/-- `DataSyncManager.createAccessPoint`: store first; on store failure
return it unchanged.  On index failure, compensate by deleting the
just-created store row (ignoring that delete's own result) and report
failure. -/
def createAccessPoint (env : Env) (st : SyncState) (ap : AccessPoint) :
    APIResponse AccessPoint × SyncState :=
  let r := SupabaseOperations.createAccessPoint env st ap
  if r.1.success = false then r
  else
    let p := PineconeOperations.upsertAccessPoint env r.2 ap
    if p.1.success = false then
      ({ success := false, error := some "Failed to sync to Pinecone, rolled back Supabase" },
       (SupabaseOperations.deleteAccessPoint env p.2 ap.id).2)
    else (r.1, p.2)

/-- `DataSyncManager.updateAccessPoint`: store first; on store failure
return it.  On success, re-upsert the index with the returned fully-merged
record; an index failure is only logged and the store result is returned
anyway. -/
def updateAccessPoint (env : Env) (st : SyncState) (id : String)
    (u : PartialAccessPoint) : APIResponse AccessPoint × SyncState :=
  let r := SupabaseOperations.updateAccessPoint env st id u
  if r.1.success = false then r
  else
    match r.1.data with
    | some fullAccessPoint =>
      (r.1, (PineconeOperations.updateAccessPoint env r.2 fullAccessPoint).2)
    | none => r

/-- `DataSyncManager.deleteAccessPoint`: issue both deletions
independently (`Promise.allSettled` fan-out: the store call touches only
the store, the index call only the index); fail only when both failed. -/
def deleteAccessPoint (env : Env) (st : SyncState) (id : String) :
    APIResponse Unit × SyncState :=
  let s := SupabaseOperations.deleteAccessPoint env st id
  let p := PineconeOperations.deleteAccessPoint env st id
  let st' : SyncState :=
    { store := s.2.store, index := p.2.index, indexBulkCalls := st.indexBulkCalls }
  if s.1.success = false && p.1.success = false then
    ({ success := false, error := some "Failed to delete from both databases" }, st')
  else ({ success := true }, st')

/-- `DataSyncManager.getAccessPoint`: pure delegation to the store. -/
def getAccessPoint (st : SyncState) (id : String) : APIResponse AccessPoint :=
  SupabaseOperations.getAccessPoint st id

/-- The re-fetch loop of `searchAccessPoints`: fetch each ranked id from
the store in order, keeping only the ids the store resolves. -/
def fetchByIds (st : SyncState) : List String → List AccessPoint
  | [] => []
  | id :: rest =>
    let apResult := SupabaseOperations.getAccessPoint st id
    match apResult.success, apResult.data with
    | true, some ap => ap :: fetchByIds st rest
    | _, _ => fetchByIds st rest

/-- `DataSyncManager.searchAccessPoints`: try the index similarity query;
on failure fall back to the store text search; on success re-fetch the
ranked ids from the store. -/
def searchAccessPoints (env : Env) (st : SyncState) (q : String) (topK : Nat) :
    APIResponse (List AccessPoint) :=
  let pineconeResult := PineconeOperations.searchSimilar env q topK
  if pineconeResult.success = false then SupabaseOperations.searchAccessPoints env q
  else { success := true, data := some (fetchByIds st (pineconeResult.data.getD [])) }

/-- `DataSyncManager.bulkSyncAccessPoints`: batch-write the store; on
failure abort.  On success bulk-upsert the index, retrying exactly once on
failure; report failure only when the retry also failed. -/
def bulkSyncAccessPoints (env : Env) (st : SyncState) (aps : List AccessPoint) :
    APIResponse Unit × SyncState :=
  let r := SupabaseOperations.bulkInsertAccessPoints env st aps
  if r.1.success = false then
    ({ success := false,
       error := some "Failed to bulk sync to Supabase" }, r.2)
  else
    let p := PineconeOperations.bulkUpsertAccessPoints env r.2 aps
    if p.1.success = false then
      let retry := PineconeOperations.bulkUpsertAccessPoints env p.2 aps
      if retry.1.success = false then
        ({ success := false,
           error := some "Failed to sync to Pinecone after retry. Supabase sync was successful." },
         retry.2)
      else ({ success := true }, retry.2)
    else ({ success := true }, p.2)

end DataSyncManager

/-- Empty initial state. -/
def st0 : SyncState := { store := [], index := [], indexBulkCalls := 0 }

/-- An environment where every call reaches its backend; concrete
evaluation point for witnesses. -/
def envAllOk : Env where
  now := "2024-01-01T00:00:00.000Z"
  storeCreateOk := true
  storeUpdateOk := true
  storeDeleteOk := true
  storeBulkOk := true
  storeSearchOk := true
  storeSearchRows := fun _ => []
  indexUpsertOk := true
  indexDeleteOk := true
  indexBulkOk := fun _ => true
  indexBulkCommittedChunks := fun _ => 0
  indexQuery := some []

/-- A one-record state: the store holds exactly `apMin`; concrete
evaluation point for witnesses. -/
def stA : SyncState := { store := [apMin], index := [], indexBulkCalls := 0 }

/-!
## Helper lemmas
-/

/-- `Rat.divInt n 1000` is ordinary division by 1000. -/
theorem divInt_thousand_eq (n : Int) : Rat.divInt n 1000 = (n : ℚ) / 1000 := by
  rw [Rat.divInt_eq_div]; norm_num

/-- `Rat.divInt (m - 1000) 1000` is `m / 1000 - 1`, the slot formula as the
spec writes it. -/
theorem divInt_sub_thousand_eq (m : Int) :
    Rat.divInt (m - 1000) 1000 = (m : ℚ) / 1000 - 1 := by
  rw [Rat.divInt_eq_div]; push_cast; ring

theorem toInt32_emod (n : Int) : toInt32 n % 4294967296 = n % 4294967296 := by
  unfold toInt32; split <;> omega

theorem toInt32_congr {a b : Int} (h : a % 4294967296 = b % 4294967296) :
    toInt32 a = toInt32 b := by
  unfold toInt32; rw [h]

/-- The source's shift-based hash step computes `hash * 31 + c` wrapped to
32-bit signed. -/
theorem jsHashStep_eq (hash c : Int) :
    jsHashStep hash c = toInt32 (hash * 31 + c) := by
  apply toInt32_congr
  have h := toInt32_emod (hash * 32)
  omega

theorem embedStep_eq_referenceAmendedStep :
    PineconeOperations.embedStep = PineconeOperations.referenceAmendedStep := by
  funext acc c
  simp only [PineconeOperations.embedStep, PineconeOperations.referenceAmendedStep,
    jsHashStep_eq]

theorem foldl_embedStep_length (l : List Int) (acc : List ℚ × Int × Nat) :
    (l.foldl PineconeOperations.embedStep acc).1.length = acc.1.length := by
  induction l generalizing acc with
  | nil => rfl
  | cons c rest ih =>
    rw [List.foldl_cons, ih]
    simp [PineconeOperations.embedStep]

theorem hashEmbedString_length (s : String) :
    (PineconeOperations.hashEmbedString s).length = EMBEDDING_DIMENSION := by
  unfold PineconeOperations.hashEmbedString
  rw [foldl_embedStep_length]
  simp

/-- Filtering out every row whose id column equals `id` makes a find-by-id
fail. -/
theorem find_filter_ne (l : List AccessPoint) (id : String) :
    (l.filter (fun r => r.id != id)).find? (fun r => r.id == id) = none := by
  apply List.find?_eq_none.mpr
  intro x hx
  have hmem := List.of_mem_filter hx
  simp only [bne_iff_ne, ne_eq] at hmem
  simp [hmem]

/-- After replacing the matched row by `merged` (with `merged.id = id`),
find-by-id returns `merged`. -/
theorem find_map_update (l : List AccessPoint) (id : String) (merged : AccessPoint)
    (hm : merged.id = id) (h : (l.find? (fun r => r.id == id)).isSome) :
    (l.map (fun r => if r.id == id then merged else r)).find? (fun r => r.id == id)
      = some merged := by
  induction l with
  | nil => simp at h
  | cons a rest ih =>
    by_cases ha : a.id = id
    · simp [List.find?, ha, hm]
    · have hb : (a.id == id) = false := by simp [ha]
      simp only [List.find?_cons, hb, cond_false] at h
      simp only [List.map_cons, hb, if_false, Bool.false_eq_true, if_neg]
      rw [List.find?_cons, hb]
      exact ih h

/-- The re-fetch loop keeps, in ranking order, exactly the ids the store
resolves. -/
theorem fetchByIds_eq_filterMap (st : SyncState) (ids : List String) :
    DataSyncManager.fetchByIds st ids
      = ids.filterMap (fun id => st.store.find? (fun r => r.id == id)) := by
  induction ids with
  | nil => rfl
  | cons id rest ih =>
    simp only [DataSyncManager.fetchByIds, SupabaseOperations.getAccessPoint]
    cases h : st.store.find? (fun r => r.id == id) with
    | none => simp [h, ih, List.filterMap_cons]
    | some ap => simp [h, ih, List.filterMap_cons]

/-- The store adapter never touches the index side. -/
theorem storeCreate_index (env : Env) (st : SyncState) (ap : AccessPoint) :
    (SupabaseOperations.createAccessPoint env st ap).2.index = st.index := by
  unfold SupabaseOperations.createAccessPoint
  split
  · rfl
  · split <;> rfl

theorem storeUpdate_index (env : Env) (st : SyncState) (id : String)
    (u : PartialAccessPoint) :
    (SupabaseOperations.updateAccessPoint env st id u).2.index = st.index := by
  unfold SupabaseOperations.updateAccessPoint
  split
  · rfl
  · split <;> rfl

/-- C1: For Coordinator create(record): if the store write fails, the
coordinator returns that failure and never touches the index; if the store
write succeeds but the index upsert fails, the coordinator deletes the
just-created store row (compensation) and returns failure, so a subsequent
store get(id) returns not-found. -/
theorem createAccessPoint_rollback (env : Env) (st : SyncState) (ap : AccessPoint) :
    ((SupabaseOperations.createAccessPoint env st ap).1.success = false →
      DataSyncManager.createAccessPoint env st ap
        = SupabaseOperations.createAccessPoint env st ap ∧
      (DataSyncManager.createAccessPoint env st ap).2.index = st.index) ∧
    ((SupabaseOperations.createAccessPoint env st ap).1.success = true →
      env.indexUpsertOk = false →
      env.storeDeleteOk = true →
      (DataSyncManager.createAccessPoint env st ap).1.success = false ∧
      (SupabaseOperations.getAccessPoint
        (DataSyncManager.createAccessPoint env st ap).2 ap.id).success = false) := by
  constructor
  · intro h
    have hco : DataSyncManager.createAccessPoint env st ap
        = SupabaseOperations.createAccessPoint env st ap := by
      unfold DataSyncManager.createAccessPoint
      simp [h]
    exact ⟨hco, by rw [hco]; exact storeCreate_index env st ap⟩
  · intro h1 h2 h3
    have hco : DataSyncManager.createAccessPoint env st ap
        = ({ success := false, error := some "Failed to sync to Pinecone, rolled back Supabase" },
           (SupabaseOperations.deleteAccessPoint env
             (SupabaseOperations.createAccessPoint env st ap).2 ap.id).2) := by
      unfold DataSyncManager.createAccessPoint
      simp [h1, PineconeOperations.upsertAccessPoint, h2]
    rw [hco]
    refine ⟨rfl, ?_⟩
    have hstate : (SupabaseOperations.deleteAccessPoint env
        (SupabaseOperations.createAccessPoint env st ap).2 ap.id).2.store
        = (SupabaseOperations.createAccessPoint env st ap).2.store.filter
            (fun r => r.id != ap.id) := by
      unfold SupabaseOperations.deleteAccessPoint
      simp [h3]
    simp only [SupabaseOperations.getAccessPoint, hstate, find_filter_ne]

/-- C3: For Coordinator delete(id): both backend deletions are issued
independently; the overall result is failure exactly when both the store
delete and the index delete fail, and success when at least one succeeds. -/
theorem deleteAccessPoint_either (env : Env) (st : SyncState) (id : String) :
    (DataSyncManager.deleteAccessPoint env st id).1.success
      = ((SupabaseOperations.deleteAccessPoint env st id).1.success
         || (PineconeOperations.deleteAccessPoint env st id).1.success) := by
  unfold DataSyncManager.deleteAccessPoint
  cases hs : (SupabaseOperations.deleteAccessPoint env st id).1.success <;>
    cases hp : (PineconeOperations.deleteAccessPoint env st id).1.success <;>
      simp [hs, hp]

/-- C4: For Coordinator update(id, partialFields): if the store update
succeeds, the coordinator re-upserts the index using the fully-merged
record returned by the store (not the partial input), and returns the
store's successful result even when the index upsert fails; if the store
update fails, the failure is returned and the index is untouched. -/
theorem updateAccessPoint_asymmetry (env : Env) (st : SyncState) (id : String)
    (u : PartialAccessPoint) :
    ((SupabaseOperations.updateAccessPoint env st id u).1.success = false →
      DataSyncManager.updateAccessPoint env st id u
        = SupabaseOperations.updateAccessPoint env st id u ∧
      (DataSyncManager.updateAccessPoint env st id u).2.index = st.index) ∧
    (∀ old, st.store.find? (fun r => r.id == id) = some old →
      env.storeUpdateOk = true → u.id = none →
      (DataSyncManager.updateAccessPoint env st id u).1
        = { success := true, data := some (applyUpdates old u env.now), error := none } ∧
      (SupabaseOperations.getAccessPoint
          (DataSyncManager.updateAccessPoint env st id u).2 id).data
        = some (applyUpdates old u env.now) ∧
      (env.indexUpsertOk = true →
        ((DataSyncManager.updateAccessPoint env st id u).2.index.lookup id)
          = some (vectorDataOf (applyUpdates old u env.now)))) := by
  constructor
  · intro h
    have hco : DataSyncManager.updateAccessPoint env st id u
        = SupabaseOperations.updateAccessPoint env st id u := by
      unfold DataSyncManager.updateAccessPoint
      simp [h]
    exact ⟨hco, by rw [hco]; exact storeUpdate_index env st id u⟩
  · intro old hfind hok hid
    have hmid : (applyUpdates old u env.now).id = id := by
      have hput := List.find?_some hfind
      simp only [beq_iff_eq] at hput
      simp [applyUpdates, hid, hput]
    have hsr : SupabaseOperations.updateAccessPoint env st id u
        = ({ success := true, data := some (applyUpdates old u env.now), error := none }, { st with store := st.store.map fun r => if r.id == id then applyUpdates old u env.now else r }) := by
      unfold SupabaseOperations.updateAccessPoint
      simp [hok, hfind]
    have hco : DataSyncManager.updateAccessPoint env st id u
        = ({ success := true, data := some (applyUpdates old u env.now), error := none }, (PineconeOperations.updateAccessPoint env { st with store := st.store.map fun r => if r.id == id then applyUpdates old u env.now else r } (applyUpdates old u env.now)).2) := by
      unfold DataSyncManager.updateAccessPoint
      rw [hsr]
      rfl
    refine ⟨by rw [hco], ?_, ?_⟩
    · rw [hco]
      have hstore : (PineconeOperations.updateAccessPoint env { st with store := st.store.map fun r => if r.id == id then applyUpdates old u env.now else r } (applyUpdates old u env.now)).2.store
          = st.store.map fun r => if r.id == id then applyUpdates old u env.now else r := by
        unfold PineconeOperations.updateAccessPoint PineconeOperations.upsertAccessPoint
        split <;> rfl
      simp only [SupabaseOperations.getAccessPoint, hstore]
      rw [find_map_update st.store id _ hmid (by rw [hfind]; rfl)]
    · intro hup
      rw [hco]
      have hix : (PineconeOperations.updateAccessPoint env { st with store := st.store.map fun r => if r.id == id then applyUpdates old u env.now else r } (applyUpdates old u env.now)).2.index
          = upsertVector st.index (applyUpdates old u env.now) := by
        unfold PineconeOperations.updateAccessPoint PineconeOperations.upsertAccessPoint
        simp [hup]
      rw [hix]
      unfold upsertVector
      rw [hmid]
      simp [List.lookup]

/-- C6: For Coordinator bulkSync(records): if the store batch write fails,
the operation aborts with failure and the index is never written; if the
store write succeeds and the index bulk-upsert fails, the bulk-upsert is
retried exactly once, and only if that single retry also fails does
bulkSync report failure (the store side staying synced); otherwise it
reports success. -/
theorem bulkSync_retry_once (env : Env) (st : SyncState) (aps : List AccessPoint) :
    (env.storeBulkOk = false →
      (DataSyncManager.bulkSyncAccessPoints env st aps).1.success = false ∧
      (DataSyncManager.bulkSyncAccessPoints env st aps).2 = st) ∧
    (env.storeBulkOk = true →
      (DataSyncManager.bulkSyncAccessPoints env st aps).1.success
        = (env.indexBulkOk st.indexBulkCalls || env.indexBulkOk (st.indexBulkCalls + 1)) ∧
      (DataSyncManager.bulkSyncAccessPoints env st aps).2.indexBulkCalls
        = st.indexBulkCalls + (if env.indexBulkOk st.indexBulkCalls then 1 else 2) ∧
      (DataSyncManager.bulkSyncAccessPoints env st aps).2.store
        = (SupabaseOperations.bulkInsertAccessPoints env st aps).2.store) := by
  constructor
  · intro h
    unfold DataSyncManager.bulkSyncAccessPoints SupabaseOperations.bulkInsertAccessPoints
    simp [h]
  · intro h
    unfold DataSyncManager.bulkSyncAccessPoints
    have hsr : SupabaseOperations.bulkInsertAccessPoints env st aps
        = ({ success := true }, { st with store := (aps.map fun ap => { ap with createdAt := some env.now, updatedAt := some env.now }).foldl SupabaseOperations.upsertRow st.store }) := by
      unfold SupabaseOperations.bulkInsertAccessPoints
      simp [h]
    rw [hsr]
    unfold PineconeOperations.bulkUpsertAccessPoints
    cases h1 : env.indexBulkOk st.indexBulkCalls <;>
      cases h2 : env.indexBulkOk (st.indexBulkCalls + 1) <;>
        simp [h1, h2]

/-- C8: For Coordinator search(query, topK): if the index similarity query
fails, the result is exactly the store's text search result; if the index
query succeeds, the result is success, carrying the full records the store
resolves for the index's ranked ids, in ranking order, with unresolvable
ids silently skipped. -/
theorem searchAccessPoints_fallback_and_rank (env : Env) (st : SyncState)
    (q : String) (topK : Nat) :
    DataSyncManager.searchAccessPoints env st q topK
      = match env.indexQuery with
        | none => SupabaseOperations.searchAccessPoints env q
        | some ids =>
          { success := true,
            data := some (ids.filterMap fun id => st.store.find? (fun r => r.id == id)),
            error := none } := by
  cases hq : env.indexQuery with
  | none =>
    unfold DataSyncManager.searchAccessPoints PineconeOperations.searchSimilar
    simp [hq]
  | some ids =>
    unfold DataSyncManager.searchAccessPoints PineconeOperations.searchSimilar
    simp [hq, fetchByIds_eq_filterMap]

/-- C10: Coordinator delete(id) for an id that was never created reports
overall success whenever the index-side delete resolves; both the index
adapter and the Supabase store adapter return success when deleting a
non-existent id, so the coordinator cannot distinguish deleting an absent
record from deleting a present one. -/
theorem delete_absent_id_reports_success (env : Env) (st : SyncState) (id : String) :
    (env.indexDeleteOk = true →
      (DataSyncManager.deleteAccessPoint env st id).1.success = true) ∧
    (st.store.find? (fun r => r.id == id) = none →
      env.storeDeleteOk = true → env.indexDeleteOk = true →
      (SupabaseOperations.deleteAccessPoint env st id).1.success = true ∧
      (PineconeOperations.deleteAccessPoint env st id).1.success = true ∧
      (DataSyncManager.deleteAccessPoint env st id).1.success = true) := by
  have hp : env.indexDeleteOk = true →
      (PineconeOperations.deleteAccessPoint env st id).1.success = true := by
    intro h
    unfold PineconeOperations.deleteAccessPoint
    simp [h]
  have hc : env.indexDeleteOk = true →
      (DataSyncManager.deleteAccessPoint env st id).1.success = true := by
    intro h
    unfold DataSyncManager.deleteAccessPoint
    simp [hp h]
  refine ⟨hc, fun _ hs hi => ⟨?_, hp hi, hc hi⟩⟩
  unfold SupabaseOperations.deleteAccessPoint
  simp [hs]

/-- C7 (amended): the pg-backed DatabaseOperations delete reports
not-found for an absent id (and deleting the same id twice reports
not-found the second time), while the Supabase adapter delete used by the
coordinator reports success even when the row is absent. -/
theorem deleteAccessPoint_notfound (store : List AccessPoint) (id : String)
    (env : Env) (st : SyncState) :
    (store.find? (fun r => r.id == id) = none →
      (DatabaseOperations.deleteAccessPoint true store id).1
        = { success := false, error := some ("Access point with id " ++ id ++ " not found.") }) ∧
    ((store.find? (fun r => r.id == id)).isSome →
      (DatabaseOperations.deleteAccessPoint true store id).1.success = true ∧
      (DatabaseOperations.deleteAccessPoint true
          (DatabaseOperations.deleteAccessPoint true store id).2 id).1
        = { success := false, error := some ("Access point with id " ++ id ++ " not found.") }) ∧
    (env.storeDeleteOk = true →
      (SupabaseOperations.deleteAccessPoint env st id).1.success = true) := by
  refine ⟨?_, ?_, ?_⟩
  · intro h
    unfold DatabaseOperations.deleteAccessPoint
    simp [h]
  · intro h
    have hco : (DatabaseOperations.deleteAccessPoint true store id).2
        = store.filter (fun r => r.id != id) := by
      unfold DatabaseOperations.deleteAccessPoint
      simp only [Option.isSome_iff_exists] at h
      obtain ⟨a, ha⟩ := h
      simp [ha]
    constructor
    · unfold DatabaseOperations.deleteAccessPoint
      simp only [Option.isSome_iff_exists] at h
      obtain ⟨a, ha⟩ := h
      simp [ha]
    · rw [hco]
      unfold DatabaseOperations.deleteAccessPoint
      simp [find_filter_ne]
  · intro h
    unfold SupabaseOperations.deleteAccessPoint
    simp [h]


/-- C2 counterexample: the camel→snake→camel round trip fails on the
schema field name subnetID, which comes back as subnetId. -/
theorem roundtrip_fails_on_subnetID :
    "subnetID" ∈ schemaFieldNames ∧
    SupabaseOperations.toCamelCase (SupabaseOperations.toSnakeCase "subnetID")
      ≠ "subnetID" := by decide

/-- C2 (amended): toCamelCase ∘ toSnakeCase is the identity on every
schema field name except the acronym-bearing subnetID and subnetURL, which
come back as subnetId and subnetUrl. -/
theorem roundtrip_on_schema_fields :
    ((schemaFieldNames.filter fun n => n != "subnetID" && n != "subnetURL").all
      fun n => SupabaseOperations.toCamelCase (SupabaseOperations.toSnakeCase n) == n) = true ∧
    SupabaseOperations.toCamelCase (SupabaseOperations.toSnakeCase "subnetID") = "subnetId" ∧
    SupabaseOperations.toCamelCase (SupabaseOperations.toSnakeCase "subnetURL") = "subnetUrl" := by
  decide

/-- C5 counterexample: the code's embedding differs from the spec-as-written
reference (nonnegative modulus, slot values in [-1,1)) already on the
all-defaults record, because the rolling hash goes negative and JavaScript's
signed remainder then produces slot values below -1. -/
theorem generateEmbedding_ne_spec_reference :
    PineconeOperations.generateEmbedding apMin
      ≠ PineconeOperations.referenceSpecEmbedding apMin := by decide

/-- C5 (amended): the fallback embedding equals the reference definition in
which `hash mod 2000` is JavaScript's signed remainder (`Int.tmod`), so slot
values `(hash tmod 2000 - 1000)/1000` range over (-3, 1), not [-1, 1). -/
theorem generateEmbedding_eq_amended_reference (ap : AccessPoint) :
    PineconeOperations.generateEmbedding ap
      = PineconeOperations.referenceAmendedEmbedding ap := by
  unfold PineconeOperations.generateEmbedding PineconeOperations.hashEmbedString
    PineconeOperations.referenceAmendedEmbedding
  rw [embedStep_eq_referenceAmendedStep]

/-- C9: the fallback embedding is deterministic (it is a pure function of
the record) and always produces exactly EMBEDDING_DIMENSION = 1024
components, for every record and for every text, including the empty
string. -/
theorem embedding_deterministic_dimension :
    (∀ ap : AccessPoint,
      PineconeOperations.generateEmbedding ap = PineconeOperations.generateEmbedding ap ∧
      (PineconeOperations.generateEmbedding ap).length = EMBEDDING_DIMENSION) ∧
    (∀ s : String, (PineconeOperations.hashEmbedString s).length = EMBEDDING_DIMENSION) ∧
    EMBEDDING_DIMENSION = 1024 :=
  ⟨fun _ => ⟨rfl, hashEmbedString_length _⟩, fun s => hashEmbedString_length s, rfl⟩

/-- C7 counterexample: the Supabase store adapter delete reports success on
an id that has no row, and again on the second call — not a NotFoundError
failure as the claim states. -/
theorem supabaseDelete_absent_succeeds :
    st0.store.find? (fun r => r.id == "missing") = none ∧
    (SupabaseOperations.deleteAccessPoint envAllOk st0 "missing").1.success = true ∧
    (SupabaseOperations.deleteAccessPoint envAllOk
      (SupabaseOperations.deleteAccessPoint envAllOk st0 "missing").2 "missing").1.success
      = true := by decide

/-- Witness for C1 at a concrete input. -/
theorem createAccessPoint_rollback_witness :
    (SupabaseOperations.createAccessPoint { envAllOk with indexUpsertOk := false } st0 apMin).1.success = true ∧
    ({ envAllOk with indexUpsertOk := false } : Env).indexUpsertOk = false ∧
    ({ envAllOk with indexUpsertOk := false } : Env).storeDeleteOk = true ∧
    ((DataSyncManager.createAccessPoint { envAllOk with indexUpsertOk := false } st0 apMin).1.success = false ∧
      (SupabaseOperations.getAccessPoint
        (DataSyncManager.createAccessPoint { envAllOk with indexUpsertOk := false } st0 apMin).2
        apMin.id).success = false) :=
  ⟨by decide, rfl, rfl,
    (createAccessPoint_rollback { envAllOk with indexUpsertOk := false } st0 apMin).2
      (by decide) rfl rfl⟩

/-- Witness for C4 at a concrete input. -/
theorem updateAccessPoint_asymmetry_witness :
    stA.store.find? (fun r => r.id == "a") = some apMin ∧
    envAllOk.storeUpdateOk = true ∧
    ({} : PartialAccessPoint).id = none ∧
    ((DataSyncManager.updateAccessPoint envAllOk stA "a" {}).1
        = { success := true, data := some (applyUpdates apMin {} envAllOk.now), error := none } ∧
      (SupabaseOperations.getAccessPoint
          (DataSyncManager.updateAccessPoint envAllOk stA "a" {}).2 "a").data
        = some (applyUpdates apMin {} envAllOk.now) ∧
      (envAllOk.indexUpsertOk = true →
        ((DataSyncManager.updateAccessPoint envAllOk stA "a" {}).2.index.lookup "a")
          = some (vectorDataOf (applyUpdates apMin {} envAllOk.now)))) :=
  ⟨by decide, rfl, rfl,
    (updateAccessPoint_asymmetry envAllOk stA "a" {}).2 apMin (by decide) rfl rfl⟩

/-- Witness for C6 at concrete inputs, covering both the store-failure and
store-success sides. -/
theorem bulkSync_retry_once_witness :
    (envAllOk.storeBulkOk = true ∧
      ((DataSyncManager.bulkSyncAccessPoints envAllOk st0 []).1.success
          = (envAllOk.indexBulkOk st0.indexBulkCalls || envAllOk.indexBulkOk (st0.indexBulkCalls + 1)) ∧
        (DataSyncManager.bulkSyncAccessPoints envAllOk st0 []).2.indexBulkCalls
          = st0.indexBulkCalls + (if envAllOk.indexBulkOk st0.indexBulkCalls then 1 else 2) ∧
        (DataSyncManager.bulkSyncAccessPoints envAllOk st0 []).2.store
          = (SupabaseOperations.bulkInsertAccessPoints envAllOk st0 []).2.store)) ∧
    (({ envAllOk with storeBulkOk := false } : Env).storeBulkOk = false ∧
      ((DataSyncManager.bulkSyncAccessPoints { envAllOk with storeBulkOk := false } st0 []).1.success = false ∧
        (DataSyncManager.bulkSyncAccessPoints { envAllOk with storeBulkOk := false } st0 []).2 = st0)) :=
  ⟨⟨rfl, (bulkSync_retry_once envAllOk st0 []).2 rfl⟩,
    ⟨rfl, (bulkSync_retry_once { envAllOk with storeBulkOk := false } st0 []).1 rfl⟩⟩

/-- Witness for C7 at concrete inputs: absent id, present id deleted twice,
and the Supabase-side contrast. -/
theorem deleteAccessPoint_notfound_witness :
    (([] : List AccessPoint).find? (fun r => r.id == "a") = none ∧
      (DatabaseOperations.deleteAccessPoint true [] "a").1
        = { success := false,
            error := some ("Access point with id " ++ "a" ++ " not found.") }) ∧
    ((([apMin] : List AccessPoint).find? (fun r => r.id == "a")).isSome ∧
      ((DatabaseOperations.deleteAccessPoint true [apMin] "a").1.success = true ∧
        (DatabaseOperations.deleteAccessPoint true
            (DatabaseOperations.deleteAccessPoint true [apMin] "a").2 "a").1
          = { success := false,
              error := some ("Access point with id " ++ "a" ++ " not found.") })) ∧
    (envAllOk.storeDeleteOk = true ∧
      (SupabaseOperations.deleteAccessPoint envAllOk st0 "a").1.success = true) :=
  ⟨⟨rfl, (deleteAccessPoint_notfound [] "a" envAllOk st0).1 rfl⟩,
    ⟨by decide, (deleteAccessPoint_notfound [apMin] "a" envAllOk st0).2.1 (by decide)⟩,
    ⟨rfl, (deleteAccessPoint_notfound [] "a" envAllOk st0).2.2 rfl⟩⟩

/-- Witness for C10 at a concrete input. -/
theorem delete_absent_id_reports_success_witness :
    envAllOk.indexDeleteOk = true ∧
    st0.store.find? (fun r => r.id == "ghost") = none ∧
    envAllOk.storeDeleteOk = true ∧
    ((SupabaseOperations.deleteAccessPoint envAllOk st0 "ghost").1.success = true ∧
      (PineconeOperations.deleteAccessPoint envAllOk st0 "ghost").1.success = true ∧
      (DataSyncManager.deleteAccessPoint envAllOk st0 "ghost").1.success = true) :=
  ⟨rfl, rfl, rfl, (delete_absent_id_reports_success envAllOk st0 "ghost").2 rfl rfl rfl⟩
